import Mathlib

/-!
Verification of the banana-eye batch artifact-generation pipeline.

Shallow embedding of `src/pipeline.py`, `src/main.py` and `src/app.py`:
pure Lean functions for the pure parts, explicit state passing over a
filesystem model `FS` for the file side effects, `Except PyError` for
Python exceptions, and an `Env` record abstracting the two external HTTP
services (Mapbox static imagery and the Gemini generative-image service)
at their observable boundary.

Image bytes are modelled as `List Nat`.  Python floats appear in this
program only through their decimal string rendering (in file names and in
the diagnostic text payload); since that rendering is a fixed pure
function of the float value, latitude/longitude/altitude are carried as
their rendered strings.  Years are Python ints, modelled as `Int`.
-/

namespace BananaEye

/-- Raw image payloads (Python `bytes`), modelled as lists of byte values. -/
abbrev Bytes := List Nat

/-- Python exceptions that can surface in the embedded code.
`httpError` is `fastapi.HTTPException(status_code, detail)`;
`schemaError` embeds the `ValueError(f"Missing required columns: {missing}")`
raised by `process_dataframe_pipeline` (src/pipeline.py line 139), keeping
the missing-column list structured;
`osError` models an OS-level failure of `open`/`write`;
`typeError` models a Python `TypeError` raised at a call site. -/
inductive PyError where
  | httpError (status : Nat) (detail : String)
  | valueError (msg : String)
  | typeError (msg : String)
  | osError (msg : String)
  | schemaError (missing : List String)
deriving Repr, DecidableEq

/-- `str(e)` for the exceptions above.  Starlette renders an
`HTTPException` as `f"{status_code}: {detail}"`; the others render their
message.  For `schemaError` this is the message of the underlying
`ValueError` (Python renders the list of column names in brackets). -/
def PyError.message : PyError → String
  | .httpError status detail => toString status ++ ": " ++ detail
  | .valueError m => m
  | .typeError m => m
  | .osError m => m
  | .schemaError missing => "Missing required columns: " ++ toString missing

/-- One HTTP response from the Mapbox static-images API
(`requests.get` result: status code, body bytes, body text). -/
structure HttpResponse where
  statusCode : Nat
  content : Bytes
  text : String
deriving Repr, DecidableEq

/-- One part of a Gemini response; `inlineData` is
`part.inline_data` as `(mime_type, data)` when present. -/
structure GeminiPart where
  inlineData : Option (String × Bytes)
deriving Repr, DecidableEq

/-- A Gemini `generate_content` response: `blockReason` is
`response.prompt_feedback.block_reason.name` when the prompt was blocked,
`parts` is `response.parts`. -/
structure GeminiResponse where
  blockReason : Option String
  parts : List GeminiPart
deriving Repr, DecidableEq

/-- The external world as the program observes it: the two credentials
read from the environment, the Mapbox response for the (fixed-zoom,
fixed-size) static-image request, the Gemini response as a function of
the requested year, and an optional exception raised by the Gemini client
itself (network failure etc.). -/
structure Env where
  mapboxToken : Option String
  geminiApiKey : Option String
  mapboxResponse : HttpResponse
  geminiResponse : Int → GeminiResponse
  geminiRaises : Option String

/-- Contents of a written file: `open(p, 'wb')` writes bytes,
`open(p, 'w')` writes text. -/
inductive FileContent where
  | imageBytes (data : Bytes)
  | textFile (text : String)
deriving Repr, DecidableEq

/-- Filesystem state.  Directories are kept as `pathlib` component lists
(`Path("output/x").parts == ("output", "x")`); files are keyed by their
rendered path string, newest entry first.  `failWrites` is the set of
paths at which an `open`-for-write raises an `OSError` (disk full,
permissions, ...), which is the only row-local exception source that
survives `create_enhanced_image`'s internal handler. -/
structure FS where
  dirs : List (List String)
  files : List (String × FileContent)
  failWrites : List String
deriving Repr, DecidableEq

/-- All nonempty component prefixes of a path, shortest first:
the ancestor chain that `mkdir(parents=True)` creates. -/
def prefixChain (parts : List String) : List (List String) :=
  (List.range parts.length).map (fun i => parts.take (i + 1))

/-- Record a directory as existing (no duplicates). -/
def insertDir (dirs : List (List String)) (d : List String) : List (List String) :=
  if dirs.contains d then dirs else d :: dirs

/-- `Path(...).mkdir(parents=..., exist_ok=...)`:
raises `FileExistsError` when the directory exists and `exist_ok` is
false; with `parents=False` raises `FileNotFoundError` when the parent
directory is missing; otherwise creates the directory and (with
`parents=True`) every missing ancestor. -/
def FS.mkdir (fs : FS) (parts : List String) (parents existOk : Bool) : Except PyError FS :=
  if fs.dirs.contains parts then
    if existOk then .ok fs
    else .error (.osError ("FileExistsError: " ++ String.intercalate "/" parts))
  else if !parents && decide (1 < parts.length) && !fs.dirs.contains parts.dropLast then
    .error (.osError ("FileNotFoundError: " ++ String.intercalate "/" parts))
  else
    .ok { fs with dirs := (prefixChain parts).foldl insertDir fs.dirs }

/-- `open(path, mode); f.write(content)`: raises an `OSError` on the
paths marked as failing, otherwise records the whole-file write. -/
def FS.writeFile (fs : FS) (path : String) (content : FileContent) : Except PyError FS :=
  if fs.failWrites.contains path then
    .error (.osError ("could not write file: " ++ path))
  else
    .ok { fs with files := (path, content) :: fs.files }

/-- `os.path.exists(p)` over the model: `p` names an existing directory
or an existing file. -/
def FS.pathExists (fs : FS) (p : String) : Bool :=
  fs.dirs.any (fun parts => String.intercalate "/" parts == p) || (fs.files.lookup p).isSome

/-- Python `s.startswith(pre)`, stated over the character data so that it
is transparent to the kernel. -/
def pyStartsWith (s pre : String) : Bool :=
  pre.data.isPrefixOf s.data

/-- Path-suffix check (`.png` extension test), over character data. -/
def pyEndsWith (s suf : String) : Bool :=
  suf.data.isSuffixOf s.data

/-- `sub` occurs contiguously inside `s`. -/
def strContains (s sub : String) : Prop :=
  ∃ pre post, s = pre ++ sub ++ post

/-- `get_mapbox_image` (src/main.py lines 47-66): raises
`HTTPException(500)` when `MAPBOX_ACCESS_TOKEN` is unset or the provider
answers with a non-200 status, otherwise returns the response bytes.
The URL construction is not observable and is omitted. -/
def get_mapbox_image (env : Env) (_lat _lon : String) (_zoom _width _height : Nat) :
    Except PyError Bytes :=
  match env.mapboxToken with
  | none => .error (.httpError 500 "Mapbox access token not configured")
  | some _ =>
    if env.mapboxResponse.statusCode ≠ 200 then
      .error (.httpError 500 ("Failed to fetch map image: " ++ env.mapboxResponse.text))
    else
      .ok env.mapboxResponse.content

/-- The scan in src/main.py lines 121-126: the first response part whose
`inline_data` is present with a mime type starting with `image/`. -/
def findImagePart : List GeminiPart → Option Bytes
  | [] => none
  | p :: ps =>
    match p.inlineData with
    | some (mime, d) => if pyStartsWith mime "image/" then some d else findImagePart ps
    | none => findImagePart ps

/-- `generate_enhanced_aerial_view` (src/main.py lines 68-136):
raises `HTTPException(500)` when `GEMINI_API_KEY` is unset; a client
exception becomes `HTTPException(500, "Failed to generate ...")`; a
content-safety block becomes a `ValueError` re-raised as
`HTTPException(400)`; a response part carrying image data is returned;
otherwise the original `imageBytes` are returned unchanged. -/
def generate_enhanced_aerial_view (env : Env) (imageBytes : Bytes) (_textPrompt : String)
    (year : Int) (_altitude : String) : Except PyError Bytes :=
  match env.geminiApiKey with
  | none => .error (.httpError 500 "Gemini API key not configured")
  | some _ =>
    match env.geminiRaises with
    | some m => .error (.httpError 500 ("Failed to generate enhanced aerial view: " ++ m))
    | none =>
      let resp := env.geminiResponse year
      match resp.blockReason with
      | some reason =>
        .error (.httpError 400 ("Image generation blocked by API. Reason: " ++ reason))
      | none =>
        match findImagePart resp.parts with
        | some d => .ok d
        | none => .ok imageBytes

/-- `str(TypeError)` for the call below. -/
def missingArgMessage : String :=
  "generate_enhanced_aerial_view() missing 1 required positional argument: text_prompt"

/-- The call written at src/pipeline.py lines 59-63:
`generate_enhanced_aerial_view(image_bytes=..., year=..., altitude=...)`.
The callee (src/main.py line 68) declares `text_prompt` as a required
parameter with no default, and the call site does not supply it, so
Python raises `TypeError` at the call, before any part of the callee
body (including its credential check) runs. -/
def pipeline_call_generate_enhanced_aerial_view (_env : Env) (_imageBytes : Bytes)
    (_year : Int) (_altitude : String) : Except PyError Bytes :=
  .error (.typeError missingArgMessage)

/-- The six sequential `f.write` calls of the fallback branch
(src/pipeline.py lines 75-81), concatenated. -/
def diagnosticPayload (lat lon alt : String) (year : Int) (errMsg : String) : String :=
  "Enhanced Aerial View Data:\n" ++
  ("Latitude: " ++ lat ++ "\n") ++
  ("Longitude: " ++ lon ++ "\n") ++
  ("Altitude: " ++ alt ++ "m\n") ++
  ("Year: " ++ toString year ++ "\n") ++
  ("Error: " ++ errMsg ++ "\n")

/-- `create_enhanced_image` (src/pipeline.py lines 44-81): fetch the base
image, call the enhancement service (as written, without `text_prompt`),
write the result bytes; any exception in that sequence, including a
failed write of the result bytes, is caught and answered by writing the
diagnostic text payload to the same path; a failure of that fallback
write itself propagates. -/
def create_enhanced_image (env : Env) (fs : FS) (imagePath : String)
    (lat lon alt : String) (year : Int) : Except PyError FS :=
  let attempt : Except PyError FS := do
    let satelliteBytes ← get_mapbox_image env lat lon 14 512 512
    let enhancedBytes ← pipeline_call_generate_enhanced_aerial_view env satelliteBytes year alt
    fs.writeFile imagePath (.imageBytes enhancedBytes)
  match attempt with
  | .ok fs2 => .ok fs2
  | .error e =>
    fs.writeFile imagePath (.textFile (diagnosticPayload lat lon alt year (PyError.message e)))

/-- The file name computed at src/pipeline.py line 108:
`f"img_{lat}_{lon}_{alt}_{yr}.png"`. -/
def filenameFor (lat lon alt : String) (year : Int) : String :=
  "img_" ++ lat ++ "_" ++ lon ++ "_" ++ alt ++ "_" ++ toString year ++ ".png"

/-- One row of the input table.  Field names follow the column names the
code actually uses (note the spelling `lattitude` throughout the
repository); coordinate fields carry the decimal rendering of the Python
float values. -/
structure RowIn where
  batchID : String
  lattitude : String
  longitude : String
  altitude : String
  year : Int
deriving Repr, DecidableEq

/-- `str(batch_dir / filename)` for a row: `output/<batchID>/<filename>`. -/
def imagePathFor (r : RowIn) : String :=
  "output/" ++ r.batchID ++ "/" ++ filenameFor r.lattitude r.longitude r.altitude r.year

/-- The per-row body of `generate_image_path_udf` (src/pipeline.py lines
101-116): make the batch directory, build the path, generate the
artifact; on success append the path string, on any exception append
`"ERROR: " + str(e)`.  The state reached before the exception (the
created directory) persists. -/
def processOneRowUdf (env : Env) (fs : FS) (r : RowIn) : FS × String :=
  match fs.mkdir ["output", r.batchID] true true with
  | .error e => (fs, "ERROR: " ++ e.message)
  | .ok fs1 =>
    match create_enhanced_image env fs1 (imagePathFor r)
        r.lattitude r.longitude r.altitude r.year with
    | .ok fs2 => (fs2, imagePathFor r)
    | .error e => (fs1, "ERROR: " ++ e.message)

/-- `generate_image_path_udf` (src/pipeline.py lines 83-119): the rows of
the batch in order, each appending exactly one result string. -/
def generate_image_path_udf (env : Env) (fs : FS) : List RowIn → FS × List String
  | [] => (fs, [])
  | r :: rest =>
    let step := processOneRowUdf env fs r
    let next := generate_image_path_udf env step.1 rest
    (next.1, step.2 :: next.2)

/-- `process_row_to_image` (src/pipeline.py lines 13-42): the same row
transformation without the catch-all, so exceptions propagate. -/
def process_row_to_image (env : Env) (fs : FS) (r : RowIn) : Except PyError (FS × String) :=
  match fs.mkdir ["output", r.batchID] true true with
  | .error e => .error e
  | .ok fs1 =>
    match create_enhanced_image env fs1 (imagePathFor r)
        r.lattitude r.longitude r.altitude r.year with
    | .ok fs2 => .ok (fs2, imagePathFor r)
    | .error e => .error e

/-- An input table: its column names, and the row data of the five
pipeline columns. -/
structure DataFrame where
  columns : List String
  rows : List RowIn
deriving Repr, DecidableEq

/-- The pipeline result: the input table with the appended `image_path`
column (`df.with_column`, modelled at the boundary the spec gives for the
dataframe library: one appended column). -/
structure ResultFrame where
  columns : List String
  rows : List RowIn
  image_path : List String
deriving Repr, DecidableEq

/-- The required-column list of src/pipeline.py line 134 (note the
spelling `lattitude`, as written in the code). -/
def requiredColumns : List String :=
  ["batchID", "lattitude", "longitude", "altitude", "year"]

/-- The missing-column computation of src/pipeline.py line 137. -/
def missingColumns (df : DataFrame) : List String :=
  requiredColumns.filter (fun c => !df.columns.contains c)

/-- `process_dataframe_pipeline` (src/pipeline.py lines 121-158): check
the schema and raise before any side effect when columns are missing;
otherwise ensure the output root directory and run the parallel UDF,
appending its results as the `image_path` column. -/
def process_dataframe_pipeline (env : Env) (fs : FS) (df : DataFrame) :
    FS × Except PyError ResultFrame :=
  if missingColumns df ≠ [] then
    (fs, .error (.schemaError (missingColumns df)))
  else
    match fs.mkdir ["output"] false true with
    | .error e => (fs, .error e)
    | .ok fs1 =>
      let run := generate_image_path_udf env fs1 df.rows
      (run.1, .ok { columns := df.columns ++ ["image_path"], rows := df.rows,
                    image_path := run.2 })

/-- The fixed year fan-out of src/app.py line 31. -/
def webYears : List Int := [1850, 1950, 2000, 2020]

/-- The input table built by `process_coordinates` (src/app.py lines
33-44): one row per target year, sharing the batch id and coordinate. -/
def buildWebDataFrame (batchId lat lon alt : String) : DataFrame :=
  { columns := ["batchID", "lattitude", "longitude", "altitude", "year"],
    rows := webYears.map (fun y =>
      { batchID := batchId, lattitude := lat, longitude := lon, altitude := alt, year := y }) }

/-- The success test of src/app.py line 61:
`os.path.exists(image_path) and not str(image_path).startswith('ERROR:')`. -/
def rowSuccessful (fs : FS) (imagePath : String) : Bool :=
  fs.pathExists imagePath && !pyStartsWith imagePath "ERROR:"

/-- The classification loop of src/app.py lines 57-64: each result row
appends its year to `successful_years` or to `failed_years`. -/
def classifyYears (fs : FS) : List (RowIn × String) → List Int × List Int
  | [] => ([], [])
  | (r, p) :: rest =>
    let tail := classifyYears fs rest
    if rowSuccessful fs p then (r.year :: tail.1, tail.2) else (tail.1, r.year :: tail.2)

/-- The JSON answer of `process_coordinates`: `success`, the two year
lists when present, and the `error` field of the failure answers. -/
structure WebReport where
  success : Bool
  successful_years : List Int
  failed_years : List Int
  error : Option String
deriving Repr, DecidableEq

/-- `process_coordinates` (src/app.py lines 17-94): build the four-row
table, run the pipeline, and classify each row by the success test; any
exception becomes a `success=False` answer carrying `str(e)`. -/
def process_coordinates (env : Env) (fs : FS) (lat lon alt : String) (batchId : String) :
    FS × WebReport :=
  let df := buildWebDataFrame batchId lat lon alt
  let run := process_dataframe_pipeline env fs df
  match run.2 with
  | .error e =>
    (run.1, { success := false, successful_years := [], failed_years := [],
              error := some (PyError.message e) })
  | .ok res =>
    if res.rows.isEmpty then
      (run.1, { success := false, successful_years := [], failed_years := [],
                error := some "No results returned from pipeline" })
    else
      let classes := classifyYears run.1 (res.rows.zip res.image_path)
      if classes.1.isEmpty then
        (run.1, { success := false, successful_years := [], failed_years := [],
                  error := some "Failed to create any files" })
      else
        (run.1, { success := true, successful_years := classes.1,
                  failed_years := classes.2, error := none })

/-! ### Helper lemmas -/

/-- The error that aborts the `try` block of `create_enhanced_image` for
a given environment: the fetch failure when Mapbox is unconfigured or
answers non-200, and otherwise the `TypeError` of the mis-spelled
enhancement call. -/
def fetchStageError (env : Env) : PyError :=
  match env.mapboxToken with
  | none => .httpError 500 "Mapbox access token not configured"
  | some _ =>
    if env.mapboxResponse.statusCode ≠ 200 then
      .httpError 500 ("Failed to fetch map image: " ++ env.mapboxResponse.text)
    else
      .typeError missingArgMessage

theorem create_enhanced_image_eq (env : Env) (fs : FS) (path lat lon alt : String) (year : Int) :
    create_enhanced_image env fs path lat lon alt year =
      fs.writeFile path
        (.textFile (diagnosticPayload lat lon alt year (PyError.message (fetchStageError env)))) := by
  unfold create_enhanced_image get_mapbox_image fetchStageError
      pipeline_call_generate_enhanced_aerial_view
  match h : env.mapboxToken with
  | none => rfl
  | some t =>
    by_cases hs : env.mapboxResponse.statusCode ≠ 200
    · simp only [if_pos hs]
      rfl
    · simp only [if_neg hs]
      rfl

/-- The filesystem after the batch-directory creation of one row. -/
def afterMkdir (fs : FS) (bid : String) : FS :=
  if fs.dirs.contains ["output", bid] then fs
  else { fs with dirs := insertDir (insertDir fs.dirs ["output"]) ["output", bid] }

theorem afterMkdir_files (fs : FS) (bid : String) : (afterMkdir fs bid).files = fs.files := by
  unfold afterMkdir
  split <;> rfl

theorem afterMkdir_failWrites (fs : FS) (bid : String) :
    (afterMkdir fs bid).failWrites = fs.failWrites := by
  unfold afterMkdir
  split <;> rfl

theorem mkdir_output_bid (fs : FS) (bid : String) :
    fs.mkdir ["output", bid] true true = .ok (afterMkdir fs bid) := by
  unfold FS.mkdir afterMkdir prefixChain
  by_cases h : ["output", bid] ∈ fs.dirs <;> simp [h, List.range_succ]

theorem insertDir_contains_self (dirs : List (List String)) (d : List String) :
    (insertDir dirs d).contains d = true := by
  by_cases h : d ∈ dirs <;> simp [insertDir, h]

theorem insertDir_mem_self (dirs : List (List String)) (d : List String) :
    d ∈ insertDir dirs d := by
  by_cases h : d ∈ dirs <;> simp [insertDir, h]

theorem afterMkdir_contains (fs : FS) (bid : String) :
    (afterMkdir fs bid).dirs.contains ["output", bid] = true := by
  unfold afterMkdir
  by_cases h : ["output", bid] ∈ fs.dirs <;> simp [h, insertDir_mem_self]

theorem afterMkdir_mem (fs : FS) (bid : String) :
    ["output", bid] ∈ (afterMkdir fs bid).dirs := by
  have h := afterMkdir_contains fs bid
  simpa using h

/-- Full evaluation of the per-row UDF body: the batch directory is
created, and then either the write fails (the row's exception becomes a
sentinel) or the diagnostic/downloaded content is recorded at the row's
deterministic path. -/
theorem processOneRowUdf_eq (env : Env) (fs : FS) (r : RowIn) :
    processOneRowUdf env fs r =
      if fs.failWrites.contains (imagePathFor r) then
        (afterMkdir fs r.batchID, "ERROR: " ++ ("could not write file: " ++ imagePathFor r))
      else
        ({ afterMkdir fs r.batchID with
            files := (imagePathFor r, .textFile (diagnosticPayload r.lattitude r.longitude
              r.altitude r.year (PyError.message (fetchStageError env)))) :: fs.files },
          imagePathFor r) := by
  unfold processOneRowUdf
  rw [mkdir_output_bid]
  dsimp only
  rw [create_enhanced_image_eq]
  unfold FS.writeFile
  rw [afterMkdir_failWrites, afterMkdir_files]
  by_cases h : imagePathFor r ∈ fs.failWrites <;> simp [h, PyError.message]

/-- The result string of one row depends only on the environment, the
set of failing write paths, and the row itself. -/
def rowResult (env : Env) (fw : List String) (r : RowIn) : String :=
  (processOneRowUdf env { dirs := [], files := [], failWrites := fw } r).2

theorem rowResult_eq (env : Env) (fw : List String) (r : RowIn) :
    rowResult env fw r =
      if fw.contains (imagePathFor r) then
        "ERROR: " ++ ("could not write file: " ++ imagePathFor r)
      else imagePathFor r := by
  unfold rowResult
  rw [processOneRowUdf_eq]
  by_cases h : imagePathFor r ∈ fw <;> simp [h]

theorem processOneRowUdf_snd (env : Env) (fs : FS) (r : RowIn) :
    (processOneRowUdf env fs r).2 = rowResult env fs.failWrites r := by
  rw [rowResult_eq, processOneRowUdf_eq]
  by_cases h : imagePathFor r ∈ fs.failWrites <;> simp [h]

theorem processOneRowUdf_failWrites (env : Env) (fs : FS) (r : RowIn) :
    (processOneRowUdf env fs r).1.failWrites = fs.failWrites := by
  rw [processOneRowUdf_eq]
  by_cases h : imagePathFor r ∈ fs.failWrites <;>
    simp [h, afterMkdir_failWrites]

theorem udf_outputs_map (env : Env) (fs : FS) (rows : List RowIn) :
    (generate_image_path_udf env fs rows).2 = rows.map (rowResult env fs.failWrites) := by
  induction rows generalizing fs with
  | nil => rfl
  | cons r rest ih =>
    show ((processOneRowUdf env fs r).2 ::
        (generate_image_path_udf env (processOneRowUdf env fs r).1 rest).2) = _
    rw [processOneRowUdf_snd, ih, processOneRowUdf_failWrites]
    rfl

theorem udf_length (env : Env) (fs : FS) (rows : List RowIn) :
    (generate_image_path_udf env fs rows).2.length = rows.length := by
  rw [udf_outputs_map]
  exact List.length_map rows _

theorem sentinel_pyStartsWith (m : String) :
    pyStartsWith ("ERROR: " ++ m) "ERROR:" = true := by
  simp only [pyStartsWith, String.data_append]
  rw [List.isPrefixOf_iff_prefix]
  exact ⟨' ' :: m.data, rfl⟩

theorem output_not_sentinel (x : String) :
    pyStartsWith ("output/" ++ x) "ERROR:" = false := by
  simp only [pyStartsWith, String.data_append]
  rw [Bool.eq_false_iff]
  intro h
  rw [List.isPrefixOf_iff_prefix] at h
  rcases h with ⟨t, ht⟩
  simp at ht

theorem imagePathFor_not_sentinel (r : RowIn) :
    pyStartsWith (imagePathFor r) "ERROR:" = false := by
  have h : imagePathFor r = "output/" ++
      (r.batchID ++ ("/" ++ filenameFor r.lattitude r.longitude r.altitude r.year)) := by
    simp [imagePathFor, String.append_assoc]
  rw [h]
  exact output_not_sentinel _

theorem pyEndsWith_append_png (s : String) :
    pyEndsWith (s ++ ".png") ".png" = true := by
  simp [pyEndsWith, String.data_append, List.isSuffixOf_iff_suffix]

theorem imagePathFor_stem (r : RowIn) :
    ∃ stem, imagePathFor r = stem ++ ".png" := by
  refine ⟨"output/" ++ r.batchID ++ "/" ++
    ("img_" ++ r.lattitude ++ "_" ++ r.longitude ++ "_" ++ r.altitude ++ "_" ++
      toString r.year), ?_⟩
  simp [imagePathFor, filenameFor, String.append_assoc]

theorem mkdir_output_root (fs : FS) :
    ∃ fs1, fs.mkdir ["output"] false true = .ok fs1 := by
  unfold FS.mkdir
  by_cases h : ["output"] ∈ fs.dirs <;> simp [h, prefixChain]

theorem diagnosticPayload_contains (lat lon alt : String) (year : Int) (m : String) :
    strContains (diagnosticPayload lat lon alt year m) lat ∧
    strContains (diagnosticPayload lat lon alt year m) lon ∧
    strContains (diagnosticPayload lat lon alt year m) alt ∧
    strContains (diagnosticPayload lat lon alt year m) (toString year) ∧
    strContains (diagnosticPayload lat lon alt year m) m := by
  refine ⟨⟨"Enhanced Aerial View Data:\n" ++ "Latitude: ",
      "\n" ++ ("Longitude: " ++ lon ++ "\n") ++ ("Altitude: " ++ alt ++ "m\n") ++
        ("Year: " ++ toString year ++ "\n") ++ ("Error: " ++ m ++ "\n"), ?_⟩,
    ⟨"Enhanced Aerial View Data:\n" ++ ("Latitude: " ++ lat ++ "\n") ++ "Longitude: ",
      "\n" ++ ("Altitude: " ++ alt ++ "m\n") ++
        ("Year: " ++ toString year ++ "\n") ++ ("Error: " ++ m ++ "\n"), ?_⟩,
    ⟨"Enhanced Aerial View Data:\n" ++ ("Latitude: " ++ lat ++ "\n") ++
        ("Longitude: " ++ lon ++ "\n") ++ "Altitude: ",
      "m\n" ++ ("Year: " ++ toString year ++ "\n") ++ ("Error: " ++ m ++ "\n"), ?_⟩,
    ⟨"Enhanced Aerial View Data:\n" ++ ("Latitude: " ++ lat ++ "\n") ++
        ("Longitude: " ++ lon ++ "\n") ++ ("Altitude: " ++ alt ++ "m\n") ++ "Year: ",
      "\n" ++ ("Error: " ++ m ++ "\n"), ?_⟩,
    ⟨"Enhanced Aerial View Data:\n" ++ ("Latitude: " ++ lat ++ "\n") ++
        ("Longitude: " ++ lon ++ "\n") ++ ("Altitude: " ++ alt ++ "m\n") ++
        ("Year: " ++ toString year ++ "\n") ++ "Error: ", "\n", ?_⟩⟩ <;>
  · apply String.ext
    simp [diagnosticPayload, String.data_append]

/-! ### Concrete fixtures used by witnesses and counterexamples -/

/-- An environment with neither credential configured. -/
def env0 : Env :=
  { mapboxToken := none, geminiApiKey := none,
    mapboxResponse := { statusCode := 0, content := [], text := "" },
    geminiResponse := fun _ => { blockReason := none, parts := [] },
    geminiRaises := none }

/-- A healthy environment: both credentials set, Mapbox answers 200, but
the Gemini response carries no image part and no block. -/
def env6 : Env :=
  { mapboxToken := some "token", geminiApiKey := some "key",
    mapboxResponse := { statusCode := 200, content := [1, 2, 3], text := "" },
    geminiResponse := fun _ => { blockReason := none, parts := [] },
    geminiRaises := none }

/-- The environment of the spec's example scenario: both credentials set,
Mapbox answers 200, and the Gemini service blocks exactly the year-1850
request while answering the other years with image bytes. -/
def env7 : Env :=
  { mapboxToken := some "token", geminiApiKey := some "key",
    mapboxResponse := { statusCode := 200, content := [7, 7], text := "" },
    geminiResponse := fun y =>
      if y = 1850 then { blockReason := some "SAFETY", parts := [] }
      else { blockReason := none, parts := [{ inlineData := some ("image/png", [9, 9]) }] },
    geminiRaises := none }

/-- An empty filesystem. -/
def fs0 : FS := { dirs := [], files := [], failWrites := [] }

/-- A concrete row of the example scenario. -/
def rowW : RowIn :=
  { batchID := "web_ab12cd34", lattitude := "37.7749", longitude := "-122.4194",
    altitude := "50.0", year := 2020 }

/-- The same coordinate and year in a different batch. -/
def rowW2 : RowIn :=
  { batchID := "batch_001", lattitude := "37.7749", longitude := "-122.4194",
    altitude := "50.0", year := 2020 }

/-! ### Claim C4 -/

/-- The output file layout as the spec states it (section 6):
`output/<batchID>/img_<latitude>_<longitude>_<altitude>_<year>.png`. -/
def specOutputPath (batchID lat lon alt : String) (year : Int) : String :=
  "output/" ++ batchID ++ "/img_" ++ lat ++ "_" ++ lon ++ "_" ++ alt ++ "_" ++
    toString year ++ ".png"

/-- C4: the artifact path is a pure deterministic function of its inputs,
equal to `output/<batchID>/img_<lat>_<lon>_<alt>_<year>.png`; identical
inputs yield an identical path, and the filename part depends only on
(lat, lon, alt, year). -/
theorem c4_path_deterministic (r1 r2 : RowIn)
    (hlat : r1.lattitude = r2.lattitude) (hlon : r1.longitude = r2.longitude)
    (halt : r1.altitude = r2.altitude) (hyear : r1.year = r2.year) :
    imagePathFor r1 = specOutputPath r1.batchID r1.lattitude r1.longitude r1.altitude r1.year ∧
    filenameFor r1.lattitude r1.longitude r1.altitude r1.year =
      filenameFor r2.lattitude r2.longitude r2.altitude r2.year ∧
    (r1.batchID = r2.batchID → imagePathFor r1 = imagePathFor r2) := by
  refine ⟨?_, ?_, ?_⟩
  · apply String.ext
    simp [imagePathFor, filenameFor, specOutputPath, String.data_append]
  · rw [hlat, hlon, halt, hyear]
  · intro hb
    unfold imagePathFor
    rw [hb, hlat, hlon, halt, hyear]

/-- Closed instance of `c4_path_deterministic`. -/
theorem c4_path_deterministic_witness :
    imagePathFor rowW = specOutputPath "web_ab12cd34" "37.7749" "-122.4194" "50.0" 2020 ∧
    filenameFor "37.7749" "-122.4194" "50.0" 2020 =
      filenameFor "37.7749" "-122.4194" "50.0" 2020 ∧
    (rowW.batchID = rowW2.batchID → imagePathFor rowW = imagePathFor rowW2) :=
  c4_path_deterministic rowW rowW2 rfl rfl rfl rfl

/-! ### Claim C8 -/

/-- C8: creating the batch directory with `parents=True, exist_ok=True`
succeeds whether or not the directory already exists, leaves the
directory present, is idempotent, and is a no-op when the directory is
already there. -/
theorem c8_mkdir_idempotent (fs : FS) (bid : String) :
    ∃ fs1, fs.mkdir ["output", bid] true true = .ok fs1 ∧
      fs1.dirs.contains ["output", bid] = true ∧
      fs1.mkdir ["output", bid] true true = .ok fs1 ∧
      (fs.dirs.contains ["output", bid] = true → fs1 = fs) := by
  refine ⟨afterMkdir fs bid, mkdir_output_bid fs bid, afterMkdir_contains fs bid, ?_, ?_⟩
  · unfold FS.mkdir
    simp [afterMkdir_mem fs bid]
  · intro h
    have h2 : ["output", bid] ∈ fs.dirs := by simpa using h
    unfold afterMkdir
    simp [h2]

/-- Closed instance of `c8_mkdir_idempotent`. -/
theorem c8_mkdir_idempotent_witness :
    ∃ fs1, fs0.mkdir ["output", "batch_001"] true true = .ok fs1 ∧
      fs1.dirs.contains ["output", "batch_001"] = true ∧
      fs1.mkdir ["output", "batch_001"] true true = .ok fs1 ∧
      (fs0.dirs.contains ["output", "batch_001"] = true → fs1 = fs0) :=
  c8_mkdir_idempotent fs0 "batch_001"

/-! ### Claim C10 -/

/-- C10: the row's path ends in `.png` in every outcome, the row processor
writes only at that path (the diagnostic stand-in included), and a
successful row returns exactly that `.png` path. -/
theorem c10_png_path_every_outcome (env : Env) (fs : FS) (r : RowIn) :
    pyEndsWith (imagePathFor r) ".png" = true ∧
    (∃ stem, imagePathFor r = stem ++ ".png") ∧
    ((processOneRowUdf env fs r).1.files = fs.files ∨
      ∃ c, (processOneRowUdf env fs r).1.files = (imagePathFor r, c) :: fs.files) ∧
    (fs.failWrites.contains (imagePathFor r) = false →
      (processOneRowUdf env fs r).2 = imagePathFor r) := by
  obtain ⟨stem, hstem⟩ := imagePathFor_stem r
  refine ⟨?_, ⟨stem, hstem⟩, ?_, ?_⟩
  · rw [hstem]
    exact pyEndsWith_append_png stem
  · rw [processOneRowUdf_eq]
    by_cases h : imagePathFor r ∈ fs.failWrites
    · left
      simp [h, afterMkdir_files]
    · right
      refine ⟨.textFile (diagnosticPayload r.lattitude r.longitude r.altitude r.year
        (PyError.message (fetchStageError env))), ?_⟩
      simp [h]
  · intro h
    rw [processOneRowUdf_snd, rowResult_eq, h]
    rfl

/-- Closed instance of `c10_png_path_every_outcome`. -/
theorem c10_png_path_witness :
    pyEndsWith (imagePathFor rowW2) ".png" = true ∧
    (processOneRowUdf env6 fs0 rowW2).2 = imagePathFor rowW2 :=
  ⟨(c10_png_path_every_outcome env6 fs0 rowW2).1,
    (c10_png_path_every_outcome env6 fs0 rowW2).2.2.2 (by decide)⟩

/-! ### Claim C9 -/

/-- C9: whenever the base imagery fetch succeeds, the pipeline's
enhancement call raises a `TypeError` (the required `text_prompt`
argument is never supplied), so the row's file is always the diagnostic
text payload, never image bytes. -/
theorem c9_enhancement_call_raises (env : Env) (fs : FS) (path lat lon alt : String)
    (year : Int) (imageBytes : Bytes)
    (htok : env.mapboxToken.isSome = true) (hst : env.mapboxResponse.statusCode = 200)
    (hw : fs.failWrites.contains path = false) :
    pipeline_call_generate_enhanced_aerial_view env imageBytes year alt =
      .error (.typeError missingArgMessage) ∧
    create_enhanced_image env fs path lat lon alt year =
      .ok { fs with files := (path, .textFile (diagnosticPayload lat lon alt year
        missingArgMessage)) :: fs.files } ∧
    (∀ b : Bytes, FileContent.textFile (diagnosticPayload lat lon alt year missingArgMessage) ≠
      FileContent.imageBytes b) := by
  have herr : fetchStageError env = .typeError missingArgMessage := by
    unfold fetchStageError
    match h : env.mapboxToken with
    | none => rw [h] at htok; simp at htok
    | some t => simp [hst]
  have hw2 : path ∉ fs.failWrites := by simpa using hw
  refine ⟨rfl, ?_, fun b h => FileContent.noConfusion h⟩
  rw [create_enhanced_image_eq, herr]
  unfold FS.writeFile
  simp [hw2, PyError.message]

/-- Closed instance of `c9_enhancement_call_raises`. -/
theorem c9_enhancement_call_raises_witness :
    pipeline_call_generate_enhanced_aerial_view env6 [1, 2, 3] 2020 "50.0" =
      .error (.typeError missingArgMessage) ∧
    create_enhanced_image env6 fs0 "output/b/img_1.0_2.0_3.0_2020.png" "1.0" "2.0" "3.0" 2020 =
      .ok { fs0 with files := [("output/b/img_1.0_2.0_3.0_2020.png",
        .textFile (diagnosticPayload "1.0" "2.0" "3.0" 2020 missingArgMessage))] } ∧
    (∀ b : Bytes, FileContent.textFile (diagnosticPayload "1.0" "2.0" "3.0" 2020
      missingArgMessage) ≠ FileContent.imageBytes b) :=
  c9_enhancement_call_raises env6 fs0 "output/b/img_1.0_2.0_3.0_2020.png"
    "1.0" "2.0" "3.0" 2020 [1, 2, 3] rfl rfl rfl

/-! ### Claim C5 -/

/-- C5: when the imagery fetch fails (missing credential or non-success
status), exactly one file is written at the given path, and it is the
diagnostic text payload carrying the latitude, longitude, altitude, year
and the captured error message — not an image. -/
theorem c5_fetch_failure_diagnostic (env : Env) (fs : FS) (path lat lon alt : String)
    (year : Int)
    (hfail : env.mapboxToken = none ∨ env.mapboxResponse.statusCode ≠ 200)
    (hw : fs.failWrites.contains path = false) :
    ∃ e : PyError,
      e = fetchStageError env ∧ (∃ status detail, e = .httpError status detail) ∧
      create_enhanced_image env fs path lat lon alt year =
        .ok { fs with files := (path, .textFile (diagnosticPayload lat lon alt year
          (PyError.message e))) :: fs.files } ∧
      (∀ b : Bytes, FileContent.textFile (diagnosticPayload lat lon alt year
        (PyError.message e)) ≠ FileContent.imageBytes b) ∧
      strContains (diagnosticPayload lat lon alt year (PyError.message e)) lat ∧
      strContains (diagnosticPayload lat lon alt year (PyError.message e)) lon ∧
      strContains (diagnosticPayload lat lon alt year (PyError.message e)) alt ∧
      strContains (diagnosticPayload lat lon alt year (PyError.message e)) (toString year) ∧
      strContains (diagnosticPayload lat lon alt year (PyError.message e))
        (PyError.message e) := by
  obtain ⟨h1, h2, h3, h4, h5⟩ :=
    diagnosticPayload_contains lat lon alt year (PyError.message (fetchStageError env))
  refine ⟨fetchStageError env, rfl, ?_, ?_, fun b h => FileContent.noConfusion h,
    h1, h2, h3, h4, h5⟩
  · unfold fetchStageError
    match h : env.mapboxToken with
    | none => exact ⟨500, "Mapbox access token not configured", rfl⟩
    | some t =>
      rcases hfail with hf | hf
      · rw [h] at hf
        exact Option.noConfusion hf
      · rw [if_pos hf]
        exact ⟨500, "Failed to fetch map image: " ++ env.mapboxResponse.text, rfl⟩
  · have hw2 : path ∉ fs.failWrites := by simpa using hw
    rw [create_enhanced_image_eq]
    unfold FS.writeFile
    simp [hw2]

/-- Closed instance of `c5_fetch_failure_diagnostic` (missing Mapbox
credential). -/
theorem c5_fetch_failure_diagnostic_witness :
    ∃ e : PyError,
      e = fetchStageError env0 ∧ (∃ status detail, e = .httpError status detail) ∧
      create_enhanced_image env0 fs0 "output/b/img_1.0_2.0_3.0_1850.png" "1.0" "2.0" "3.0" 1850 =
        .ok { fs0 with files := [("output/b/img_1.0_2.0_3.0_1850.png",
          .textFile (diagnosticPayload "1.0" "2.0" "3.0" 1850 (PyError.message e)))] } ∧
      (∀ b : Bytes, FileContent.textFile (diagnosticPayload "1.0" "2.0" "3.0" 1850
        (PyError.message e)) ≠ FileContent.imageBytes b) ∧
      strContains (diagnosticPayload "1.0" "2.0" "3.0" 1850 (PyError.message e)) "1.0" ∧
      strContains (diagnosticPayload "1.0" "2.0" "3.0" 1850 (PyError.message e)) "2.0" ∧
      strContains (diagnosticPayload "1.0" "2.0" "3.0" 1850 (PyError.message e)) "3.0" ∧
      strContains (diagnosticPayload "1.0" "2.0" "3.0" 1850 (PyError.message e))
        (toString (1850 : Int)) ∧
      strContains (diagnosticPayload "1.0" "2.0" "3.0" 1850 (PyError.message e))
        (PyError.message e) :=
  c5_fetch_failure_diagnostic env0 fs0 "output/b/img_1.0_2.0_3.0_1850.png"
    "1.0" "2.0" "3.0" 1850 (Or.inl rfl) rfl

/-! ### Claim C1 -/

/-- A table exposing exactly the five columns the claim names, with the
standard spelling `latitude`. -/
def dfClaimColumns : DataFrame :=
  { columns := ["batchID", "latitude", "longitude", "altitude", "year"], rows := [] }

/-- A table exposing the five columns the code requires. -/
def dfGood : DataFrame := { columns := requiredColumns, rows := [] }

/-- C1 (amended): the schema check fails, naming the missing columns and
before any side effect, exactly when one of the code's five required
columns — `batchID`, `lattitude` (as spelled in the code), `longitude`,
`altitude`, `year` — is absent; when all five are present no schema
error is raised. -/
theorem c1_schema_check_amended (env : Env) (fs : FS) (df : DataFrame) :
    (missingColumns df ≠ [] →
      process_dataframe_pipeline env fs df =
        (fs, .error (.schemaError (missingColumns df)))) ∧
    (missingColumns df = [] →
      ∃ out, (process_dataframe_pipeline env fs df).2 = .ok out) := by
  constructor
  · intro h
    unfold process_dataframe_pipeline
    rw [if_pos h]
  · intro h
    unfold process_dataframe_pipeline
    have hne : ¬ missingColumns df ≠ [] := fun hc => hc h
    rw [if_neg hne]
    obtain ⟨fs1, h1⟩ := mkdir_output_root fs
    rw [h1]
    exact ⟨_, rfl⟩

/-- C1 counterexample: a table carrying exactly the five columns the
claim names (spelled `latitude`) is rejected by the code with a schema
error naming `lattitude`, refuting "if all five are present, no schema
error is raised". -/
theorem c1_counterexample :
    (∀ c ∈ ["batchID", "latitude", "longitude", "altitude", "year"],
      c ∈ dfClaimColumns.columns) ∧
    process_dataframe_pipeline env0 fs0 dfClaimColumns =
      (fs0, .error (.schemaError ["lattitude"])) := by
  constructor
  · decide
  · rfl

/-- Closed instance of `c1_schema_check_amended`. -/
theorem c1_schema_check_witness :
    (missingColumns dfClaimColumns ≠ [] ∧
      process_dataframe_pipeline env0 fs0 dfClaimColumns =
        (fs0, .error (.schemaError (missingColumns dfClaimColumns)))) ∧
    (missingColumns dfGood = [] ∧
      ∃ out, (process_dataframe_pipeline env0 fs0 dfGood).2 = .ok out) :=
  ⟨⟨by decide, (c1_schema_check_amended env0 fs0 dfClaimColumns).1 (by decide)⟩,
    ⟨by decide, (c1_schema_check_amended env0 fs0 dfGood).2 (by decide)⟩⟩

/-! ### Claim C2 -/

/-- C2: every accepted table comes back as the input table with exactly
one appended `image_path` column holding one result per row, with the
rows unchanged and in the input order. -/
theorem c2_row_count_invariant (env : Env) (fs : FS) (df : DataFrame)
    (h : missingColumns df = []) :
    ∃ fs2 out, process_dataframe_pipeline env fs df = (fs2, .ok out) ∧
      out.columns = df.columns ++ ["image_path"] ∧
      out.rows = df.rows ∧
      out.image_path.length = df.rows.length := by
  unfold process_dataframe_pipeline
  have hne : ¬ missingColumns df ≠ [] := fun hc => hc h
  rw [if_neg hne]
  obtain ⟨fs1, h1⟩ := mkdir_output_root fs
  rw [h1]
  exact ⟨_, _, rfl, rfl, rfl, udf_length env fs1 df.rows⟩

/-- A two-row input table over the required columns. -/
def dfTwo : DataFrame := { columns := requiredColumns, rows := [rowW, rowW2] }

/-- Closed instance of `c2_row_count_invariant`. -/
theorem c2_row_count_invariant_witness :
    missingColumns dfTwo = [] ∧
    ∃ fs2 out, process_dataframe_pipeline env0 fs0 dfTwo = (fs2, .ok out) ∧
      out.columns = dfTwo.columns ++ ["image_path"] ∧
      out.rows = dfTwo.rows ∧
      out.image_path.length = dfTwo.rows.length :=
  ⟨by decide, c2_row_count_invariant env0 fs0 dfTwo (by decide)⟩

/-! ### Claim C3 -/

/-- A row whose processing raises.  In this embedding the only exception
that can escape `create_enhanced_image`'s internal handler — and hence
reach the UDF's row boundary — is a failing file write at the row's own
path (cf. `create_enhanced_image_eq` and `FS.writeFile`). -/
def rowThrows (fw : List String) (r : RowIn) : Bool :=
  fw.contains (imagePathFor r)

theorem rowResult_sentinel_iff (env : Env) (fw : List String) (r : RowIn) :
    pyStartsWith (rowResult env fw r) "ERROR:" = rowThrows fw r := by
  rw [rowResult_eq]
  unfold rowThrows
  by_cases h : imagePathFor r ∈ fw
  · simp [h, sentinel_pyStartsWith]
  · simp [h, imagePathFor_not_sentinel]

theorem length_filter_not {α : Type} (p : α → Bool) (l : List α) :
    (l.filter (fun a => !p a)).length = l.length - (l.filter p).length := by
  induction l with
  | nil => rfl
  | cons a t ih =>
    have hle := List.length_filter_le p t
    by_cases h : p a <;> simp [List.filter_cons, h, ih] <;> omega


/-- C3: every row-local exception is caught at the row boundary and
becomes an `"ERROR: <message>"` sentinel in that row's own output cell;
no other row is affected (each output cell is a function of its own row
alone), and a run with exactly one throwing row yields exactly one
sentinel and N-1 path strings. -/
theorem c3_failure_isolation (env : Env) (fs : FS) (rows : List RowIn)
    (hone : (rows.filter (fun r => rowThrows fs.failWrites r)).length = 1) :
    (generate_image_path_udf env fs rows).2 = rows.map (rowResult env fs.failWrites) ∧
    (∀ r : RowIn, rowThrows fs.failWrites r = true →
      rowResult env fs.failWrites r =
        "ERROR: " ++ ("could not write file: " ++ imagePathFor r)) ∧
    (∀ r : RowIn, rowThrows fs.failWrites r = false →
      rowResult env fs.failWrites r = imagePathFor r) ∧
    ((generate_image_path_udf env fs rows).2.filter
      (fun s => pyStartsWith s "ERROR:")).length = 1 ∧
    ((generate_image_path_udf env fs rows).2.filter
      (fun s => !pyStartsWith s "ERROR:")).length = rows.length - 1 := by
  have hmap := udf_outputs_map env fs rows
  have hsent : ((generate_image_path_udf env fs rows).2.filter
      (fun s => pyStartsWith s "ERROR:")).length = 1 := by
    rw [hmap, List.filter_map, List.length_map]
    have hfun : ((fun s => pyStartsWith s "ERROR:") ∘ rowResult env fs.failWrites) =
        fun r => rowThrows fs.failWrites r := by
      funext r
      exact rowResult_sentinel_iff env fs.failWrites r
    rw [hfun]
    exact hone
  refine ⟨hmap, ?_, ?_, hsent, ?_⟩
  · intro r hr
    unfold rowThrows at hr
    have hr2 : imagePathFor r ∈ fs.failWrites := by simpa using hr
    rw [rowResult_eq]
    simp [hr2]
  · intro r hr
    unfold rowThrows at hr
    have hr2 : imagePathFor r ∉ fs.failWrites := by simpa using hr
    rw [rowResult_eq]
    simp [hr2]
  · have hlen := udf_length env fs rows
    rw [length_filter_not, hsent, hlen]

/-- A third distinct row, used as the single throwing row. -/
def rowBad : RowIn :=
  { batchID := "batch_002", lattitude := "34.0522", longitude := "-118.2437",
    altitude := "25.0", year := 2022 }

/-- A filesystem on which exactly `rowBad`'s write path fails. -/
def fsFail : FS :=
  { dirs := [], files := [],
    failWrites := ["output/batch_002/img_34.0522_-118.2437_25.0_2022.png"] }

/-- Closed instance of `c3_failure_isolation`: three rows, one of which
throws, give one sentinel and two path strings. -/
theorem c3_failure_isolation_witness :
    (generate_image_path_udf env6 fsFail [rowW, rowBad, rowW2]).2 =
      [rowW, rowBad, rowW2].map (rowResult env6 fsFail.failWrites) ∧
    ((generate_image_path_udf env6 fsFail [rowW, rowBad, rowW2]).2.filter
      (fun s => pyStartsWith s "ERROR:")).length = 1 ∧
    ((generate_image_path_udf env6 fsFail [rowW, rowBad, rowW2]).2.filter
      (fun s => !pyStartsWith s "ERROR:")).length = 2 := by
  obtain ⟨h1, _, _, h4, h5⟩ := c3_failure_isolation env6 fsFail [rowW, rowBad, rowW2] (by decide)
  exact ⟨h1, h4, h5⟩

/-! ### Claim C6 -/

/-- C6 (code evaluation at the failing input): with both credentials
configured, Mapbox answering 200 with base bytes `[1, 2, 3]`, and a
Gemini response carrying no image part and no block, the service
function itself would return the base bytes unchanged — but the pipeline
writes the diagnostic text payload (carrying the `TypeError` of the
`text_prompt`-less call), not the base image bytes. -/
theorem c6_soft_fallback_code_bug :
    generate_enhanced_aerial_view env6 [1, 2, 3] "a scenic aerial view" 2020 "50.0" =
      .ok [1, 2, 3] ∧
    create_enhanced_image env6 fs0 (imagePathFor rowW) "37.7749" "-122.4194" "50.0" 2020 =
      .ok { fs0 with files := [(imagePathFor rowW,
        .textFile (diagnosticPayload "37.7749" "-122.4194" "50.0" 2020 missingArgMessage))] } ∧
    (∀ b : Bytes, FileContent.textFile (diagnosticPayload "37.7749" "-122.4194" "50.0" 2020
      missingArgMessage) ≠ FileContent.imageBytes b) :=
  ⟨rfl, rfl, fun _b h => FileContent.noConfusion h⟩

/-! ### Claim C7 -/

/-- C7 counterexample: in the spec's example scenario (only the year-1850
enhancement call blocked) the code still writes a diagnostic file at the
1850 path, so the batch report lists all four years as successful and
none as failed — not `[1950, 2000, 2020]` successful and `[1850]`
failed as the claim states. -/
theorem c7_counterexample :
    (process_coordinates env7 fs0 "37.7749" "-122.4194" "50.0" "web_ab12cd34").2 =
      { success := true, successful_years := [1850, 1950, 2000, 2020],
        failed_years := [], error := none } ∧
    ¬ ((process_coordinates env7 fs0 "37.7749" "-122.4194" "50.0"
          "web_ab12cd34").2.successful_years = [1950, 2000, 2020] ∧
       (process_coordinates env7 fs0 "37.7749" "-122.4194" "50.0"
          "web_ab12cd34").2.failed_years = [1850]) := by
  constructor
  · rfl
  · decide

/-- C7 (amended): a row is classified failed exactly when its output
value starts with `"ERROR:"` or no file exists at its path; under that
rule the example batch — with only the year-1850 enhancement blocked,
that row's file holding the diagnostic payload — reports all four years
`[1850, 1950, 2000, 2020]` as successful and none as failed, because the
diagnostic file exists at the 1850 path and the 1850 output value is a
path string. -/
theorem c7_classification_amended :
    (∀ (fs : FS) (p : String), rowSuccessful fs p = false ↔
      (pyStartsWith p "ERROR:" = true ∨ fs.pathExists p = false)) ∧
    (process_coordinates env7 fs0 "37.7749" "-122.4194" "50.0" "web_ab12cd34").2 =
      { success := true, successful_years := [1850, 1950, 2000, 2020],
        failed_years := [], error := none } := by
  constructor
  · intro fs p
    unfold rowSuccessful
    cases hex : fs.pathExists p <;> cases hst : pyStartsWith p "ERROR:" <;> simp [hex, hst]
  · rfl

end BananaEye
